import Mathlib

/-!
Verification of the subprocess-isolated Playwright harness in
`reflex_dev_agent.py` (repository Grimoire-Rag_MCP_Agent_WebDev).

The Python operations are embedded shallowly: the parent-side result
decoders become total functions from a child-process outcome to either a
raised Python exception (`Except.error`) or a returned dictionary
(`Except.ok`); the child scripts' navigation control flow becomes a
function of the per-strategy outcomes; the program texts handed to the
child interpreter become Lean strings built exactly the way the source
builds them; and the semaphore-guarded concurrency discipline becomes a
small-step transition system over event programs.
-/

namespace ReflexDevAgent

/-- Python values appearing in the result dictionaries of
`reflex_dev_agent.py`.  `vFloat` stands for an opaque `time.time()`
timestamp (its numeric value is irrelevant to every claim). -/
inductive PyVal where
  | vStr : String → PyVal
  | vInt : Int → PyVal
  | vBool : Bool → PyVal
  | vNone : PyVal
  | vFloat : PyVal
  | vStrList : List String → PyVal
deriving DecidableEq, Repr

open PyVal

/-- A Python dict, modelled as an insertion-ordered association list
(CPython dicts preserve insertion order). -/
abbrev Dict := List (String × PyVal)

/-- Python `d[k]` / `d.get(k)` lookup. -/
def getVal : Dict → String → Option PyVal
  | [], _ => none
  | (k', v) :: rest, k => if k' = k then some v else getVal rest k

/-- Python `d[k] = v`: overwrite in place if the key exists, else append. -/
def setKey : Dict → String → PyVal → Dict
  | [], k, v => [(k, v)]
  | (k', v') :: rest, k, v =>
      if k' = k then (k, v) :: rest else (k', v') :: setKey rest k v

/-- Python `d.update(e)`: apply `setKey` for each pair of `e` in order. -/
def update (d : Dict) : Dict → Dict
  | [] => d
  | (k, v) :: rest => update (setKey d k v) rest

/-- The key list of a dict, in order. -/
def keys (d : Dict) : List String := d.map Prod.fst

theorem mem_keys_setKey (d : Dict) (k : String) (v : PyVal) (k' : String)
    (h : k' ∈ keys d) : k' ∈ keys (setKey d k v) := by
  induction d with
  | nil => simp [keys] at h
  | cons hd tl ih =>
      obtain ⟨khd, vhd⟩ := hd
      simp only [keys, List.map_cons, List.mem_cons] at h
      rw [setKey]
      split
      · rename_i heq
        simp only [keys, List.map_cons, List.mem_cons]
        rcases h with h | h
        · exact Or.inl (h.trans heq)
        · exact Or.inr h
      · simp only [keys, List.map_cons, List.mem_cons]
        rcases h with h | h
        · exact Or.inl h
        · exact Or.inr (ih h)

theorem mem_keys_update (d e : Dict) (k' : String)
    (h : k' ∈ keys d) : k' ∈ keys (update d e) := by
  induction e generalizing d with
  | nil => simpa [update] using h
  | cons hd tl ih =>
      obtain ⟨k, v⟩ := hd
      exact ih (setKey d k v) (mem_keys_setKey d k v k' h)

/-- `json.loads` on decoded standard output, abstracted: it either yields a
dict or fails with the message of the raised `JSONDecodeError`.  The one
library fact the development relies on is recorded as a field: parsing the
empty string fails (CPython raises `Expecting value: line 1 column 1
(char 0)`). -/
structure JsonLib where
  loads : String → Except String Dict
  loads_empty : loads "" = Except.error "Expecting value: line 1 column 1 (char 0)"

/-- A concrete `JsonLib` inhabitant used for closed evaluations: it rejects
every input with the CPython empty-input message. -/
def J0 : JsonLib :=
  ⟨fun _ => Except.error "Expecting value: line 1 column 1 (char 0)", rfl⟩

/-- What the supervised child process did, as seen by the parent:
process creation itself raised; the `asyncio.wait_for` deadline expired;
or the child completed with an exit code and (already decoded) standard
output and standard error. -/
inductive ChildOutcome where
  | spawnError : String → ChildOutcome
  | timeout : ChildOutcome
  | completed : Int → String → String → ChildOutcome
deriving DecidableEq, Repr

/-- Python exceptions that the parent-side code can let escape to its
caller. -/
inductive PyExc where
  | osError : String → PyExc
  | unboundLocalError : String → PyExc
deriving DecidableEq, Repr

/-! ## Pre-flight health check (`wait_for_port`, `reflex_healthcheck_or_fail`) -/

/-- Python `needle in haystack` on strings. -/
def pyIn (needle hay : String) : Bool := decide (needle.toList <:+: hay.toList)

/-- `wait_for_port` polls `socket.create_connection` every ~150 ms until a
connect succeeds or the 3-second wall-clock budget ends, returning whether
any attempt succeeded.  Real time is abstracted into the finite list of
connect outcomes observed inside the budget. -/
def wait_for_port (polls : List Bool) : Bool := polls.any id

/-- The dictionary `reflex_healthcheck_or_fail` returns when the port is
not reachable (source lines 55-61). -/
def reflex_unavailable_dict (port : Nat) : Dict :=
  [("status", vStr "error"),
   ("phase", vStr "reflex_unavailable"),
   ("error", vStr ("Reflex dev server not listening on port " ++ toString port)),
   ("url", vStr ("http://localhost:" ++ toString port)),
   ("timestamp", vFloat)]

/-- `reflex_healthcheck_or_fail`: `some errorDict` when the port check
fails, `none` ( = healthy) otherwise. -/
def reflex_healthcheck_or_fail (polls : List Bool) (port : Nat) : Option Dict :=
  if wait_for_port polls then none else some (reflex_unavailable_dict port)

/-- The localhost-port dispatch shared by `playwright_tool`,
`playwright_snapshot_dom` and `playwright_web_inspect`: check 3001 if the
URL mentions it, else 3000 if the URL mentions it, else no pre-flight
check.  `polls3001` / `polls3000` are the connect outcomes the respective
`wait_for_port` loop would observe. -/
def playwright_tool_precheck (url : String) (polls3001 polls3000 : List Bool) :
    Option Dict :=
  if pyIn "localhost:3001" url || pyIn "127.0.0.1:3001" url then
    reflex_healthcheck_or_fail polls3001 3001
  else if pyIn "localhost:3000" url || pyIn "127.0.0.1:3000" url then
    reflex_healthcheck_or_fail polls3000 3000
  else none

/-! ## Parent-side result decoders

Each decoder maps a `ChildOutcome` to what the Python coroutine does with
it: `Except.ok d` when the coroutine returns the dictionary `d`, and
`Except.error e` when the Python code raises `e` to its caller. -/

/-- `_run_playwright_child` after the subprocess call (source lines
550-574).  `create_subprocess_exec` is not wrapped in any `try`, so a
spawn failure propagates.  On timeout the child is killed and a plain
error dict returned.  A completed child is classified as a process-exit
error only when the exit code is non-zero AND stdout is empty; otherwise
stdout is parsed as JSON, with a fallback error dict (untruncated `raw`)
on parse failure.  No branch produces a `phase` key. -/
def run_playwright_child_decode (J : JsonLib) (timeout_s : Int) :
    ChildOutcome → Except PyExc Dict
  | ChildOutcome.spawnError msg => Except.error (PyExc.osError msg)
  | ChildOutcome.timeout =>
      Except.ok [("status", vStr "error"),
                 ("error", vStr ("timeout after " ++ toString timeout_s ++ "s"))]
  | ChildOutcome.completed rc out err =>
      if rc ≠ 0 ∧ out = "" then
        Except.ok [("status", vStr "error"),
                   ("error", vStr ("child exit " ++ toString rc)),
                   ("stderr", vStr err)]
      else
        match J.loads out with
        | Except.ok d => Except.ok d
        | Except.error e =>
            Except.ok [("status", vStr "error"),
                       ("error", vStr ("bad JSON from child: " ++ e)),
                       ("raw", vStr out)]

/-- `playwright_fetch` after the subprocess call (source lines 338-356).
Spawn failures propagate (no `try` around `create_subprocess_exec`); a
non-zero exit code is classified as a process-exit error regardless of
stdout; parse failures truncate `raw` to 400 characters.  No `phase`
key on any branch. -/
def playwright_fetch_decode (J : JsonLib) (url : String) :
    ChildOutcome → Except PyExc Dict
  | ChildOutcome.spawnError msg => Except.error (PyExc.osError msg)
  | ChildOutcome.timeout =>
      Except.ok [("status", vStr "error"),
                 ("error", vStr "timeout after 30s"),
                 ("url", vStr url)]
  | ChildOutcome.completed rc out err =>
      if rc ≠ 0 then
        Except.ok [("status", vStr "error"),
                   ("error", vStr ("child exit " ++ toString rc)),
                   ("stderr", vStr (err.take 400))]
      else
        match J.loads out with
        | Except.ok d => Except.ok d
        | Except.error e =>
            Except.ok [("status", vStr "error"),
                       ("error", vStr ("bad JSON: " ++ e)),
                       ("raw", vStr (out.take 400))]

/-- `playwright_snapshot_dom` after the subprocess call (source lines
710-749).  In the timeout handler the returned dict evaluates
`stderr.decode(errors="ignore")[:500] if stderr else None`, but `stderr`
was never assigned (the `await asyncio.wait_for(proc.communicate(), ...)`
raised before binding it), so CPython raises `UnboundLocalError` for the
local `stderr` instead of returning the dict. -/
def playwright_snapshot_decode (J : JsonLib) (url : String) :
    ChildOutcome → Except PyExc Dict
  | ChildOutcome.spawnError msg => Except.error (PyExc.osError msg)
  | ChildOutcome.timeout => Except.error (PyExc.unboundLocalError "stderr")
  | ChildOutcome.completed rc out err =>
      if rc ≠ 0 ∧ out = "" then
        Except.ok [("status", vStr "error"),
                   ("error", vStr ("process exit " ++ toString rc)),
                   ("stderr", vStr (err.take 500)),
                   ("url", vStr url)]
      else
        match J.loads out with
        | Except.ok d => Except.ok d
        | Except.error e =>
            Except.ok [("status", vStr "error"),
                       ("error", vStr ("bad JSON from child: " ++ e)),
                       ("raw", vStr (out.take 1000)),
                       ("stderr", vStr (err.take 500)),
                       ("url", vStr url)]

/-- The Merriam-Webster URL built by `dictionary_define`. -/
def mw_url (term : String) : String :=
  "https://www.merriam-webster.com/dictionary/" ++ term

/-- The sense-selection step of `dictionary_define` (source lines
479-481): `idx = sense_index - 1; requested = defs[idx] if 0 <= idx <
len(defs) else None`.  The index is guarded, so the embedding is total. -/
def dictionary_sense_select (defs : List String) (sense_index : Int) :
    Option String :=
  let idx : Int := sense_index - 1
  if h : 0 ≤ idx ∧ idx < (defs.length : Int) then
    some (defs.get ⟨idx.toNat, by omega⟩)
  else none

/-- The child side of `dictionary_define` keeps at most 12 definitions
(`definitions[:12]`, source line 445). -/
def dictionary_child_definitions (collected : List String) : List String :=
  collected.take 12

/-- `dictionary_define` after the subprocess call (source lines 456-485).
Note the exit classification uses `returncode != 0 OR stdout empty`, and
the post-processing adds the requested-sense fields to the child dict. -/
def dictionary_define_decode (J : JsonLib) (term : String) (sense_index : Int) :
    ChildOutcome → Except PyExc Dict
  | ChildOutcome.spawnError msg => Except.error (PyExc.osError msg)
  | ChildOutcome.timeout =>
      Except.ok [("status", vStr "error"), ("error", vStr "timeout"),
                 ("term", vStr term), ("url", vStr (mw_url term))]
  | ChildOutcome.completed rc out err =>
      if rc ≠ 0 ∨ out = "" then
        Except.ok [("status", vStr "error"),
                   ("error", vStr ("exit " ++ toString rc)),
                   ("stderr", vStr (err.take 300)),
                   ("term", vStr term), ("url", vStr (mw_url term))]
      else
        match J.loads out with
        | Except.error e =>
            Except.ok [("status", vStr "error"),
                       ("error", vStr ("bad json: " ++ e)),
                       ("raw", vStr (out.take 400))]
        | Except.ok data =>
            let defs :=
              match getVal data "definitions" with
              | some (PyVal.vStrList l) => l
              | _ => []
            Except.ok (update data
              [("requested_definition_index", vInt sense_index),
               ("requested_definition",
                  match dictionary_sense_select defs sense_index with
                  | some s => vStr s
                  | none => vNone),
               ("term", vStr term)])

/-- `playwright_tool` (source lines 576-590): run the pre-flight check for
recognized localhost ports; if it fails, return its dict without spawning;
otherwise spawn the child and decode with `_run_playwright_child`'s
22-second policy.  The first component counts spawned child processes. -/
def playwright_tool_run (J : JsonLib) (url : String)
    (polls3001 polls3000 : List Bool) (o : ChildOutcome) :
    Nat × Except PyExc Dict :=
  match playwright_tool_precheck url polls3001 polls3000 with
  | some herr => (0, Except.ok herr)
  | none =>
      match o with
      | ChildOutcome.spawnError msg => (0, Except.error (PyExc.osError msg))
      | o => (1, run_playwright_child_decode J 22 o)

/-! ## `playwright_web_inspect`: stable result schema and full control flow -/

/-- The `result_schema` dict literal of `playwright_web_inspect` (source
lines 822-836). -/
def web_inspect_result_schema (url : String) : Dict :=
  [("status", vStr "pending"),
   ("url", vStr url),
   ("title", vNone),
   ("final_url", vNone),
   ("timestamp", vFloat),
   ("body_text_length", vNone),
   ("has_forms", vNone),
   ("form_count", vNone),
   ("has_buttons", vNone),
   ("button_count", vNone),
   ("input_count", vNone),
   ("error", vNone),
   ("debug_info", vNone)]

/-- `playwright_web_inspect` (source lines 816-1010): health check for
recognized localhost ports, then the child run inside an outer
`try/except` whose handler folds even process-creation failures into the
schema.  A JSON parse failure inside the inner `try` is caught by the
same outer handler (`str(e)[:200]`, `debug_info =
"subprocess_creation_failed"`).  Every path returns the schema dict
updated in place, so the function is total. -/
def playwright_web_inspect_run (J : JsonLib) (url : String)
    (polls3001 polls3000 : List Bool) (o : ChildOutcome) : Dict :=
  let schema := web_inspect_result_schema url
  match playwright_tool_precheck url polls3001 polls3000 with
  | some herr => update schema herr
  | none =>
      match o with
      | ChildOutcome.spawnError msg =>
          update schema
            [("status", vStr "error"), ("error", vStr (msg.take 200)),
             ("debug_info", vStr "subprocess_creation_failed")]
      | ChildOutcome.timeout =>
          update schema
            [("status", vStr "error"),
             ("error", vStr "Inspection timed out after 12 seconds"),
             ("debug_info", vStr "timeout_killed")]
      | ChildOutcome.completed rc out err =>
          if rc = 0 ∧ out ≠ "" then
            match J.loads out.trim with
            | Except.ok d => setKey (update schema d) "timestamp" vFloat
            | Except.error e =>
                update schema
                  [("status", vStr "error"), ("error", vStr (e.take 200)),
                   ("debug_info", vStr "subprocess_creation_failed")]
          else
            update schema
              [("status", vStr "error"),
               ("error", vStr ("Process failed (code: " ++ toString rc ++ ")")),
               ("debug_info", if err = "" then vNone else vStr (err.take 200))]

/-! ## Child-side models -/

/-- Outcome of one `page.goto(..., wait_until=strategy, timeout=...)`
attempt: it either returned or raised `PWTimeout`. -/
inductive NavOutcome where
  | ok : NavOutcome
  | timeout : NavOutcome
deriving DecidableEq, Repr

/-- The behaviour of the target page as observed by the child script of
`playwright_web_inspect` on its successful-launch branch: one outcome per
navigation strategy, plus the extracted page data. -/
structure InspectPage where
  networkidle : NavOutcome
  domcontentloaded : NavOutcome
  load : NavOutcome
  title : String
  final_url : String
  ready_state : String
  body_text : String
  form_count : Nat
  button_count : Nat
  input_count : Nat
deriving DecidableEq, Repr

/-- The `inspect_website` function of the child program generated by
`playwright_web_inspect` (source lines 857-933), successful-launch branch:
strategies are tried in the order networkidle, domcontentloaded, load,
each attempt appending `"<name>_success"` or `"<name>_timeout"` to
`debug_info`; the first success stops the sequence.  If all three time
out, the result is the error dict of lines 893-898 (no `phase` key).  On
success a `"ready_state: ..."` entry is appended and the success dict is
built; when `get_title_only` is false the detail counts are added. -/
def inspect_website (url : String) (get_title_only : Bool) (pg : InspectPage) :
    Dict :=
  let nav :
      Bool × List String :=
    match pg.networkidle with
    | NavOutcome.ok => (true, ["networkidle_success"])
    | NavOutcome.timeout =>
        match pg.domcontentloaded with
        | NavOutcome.ok => (true, ["networkidle_timeout", "domcontentloaded_success"])
        | NavOutcome.timeout =>
            match pg.load with
            | NavOutcome.ok =>
                (true, ["networkidle_timeout", "domcontentloaded_timeout", "load_success"])
            | NavOutcome.timeout =>
                (false, ["networkidle_timeout", "domcontentloaded_timeout", "load_timeout"])
  if nav.1 = false then
    [("status", vStr "error"), ("url", vStr url),
     ("error", vStr "All navigation strategies timed out"),
     ("debug_info", vStrList nav.2)]
  else
    let debug := nav.2 ++ ["ready_state: " ++ pg.ready_state]
    let result : Dict :=
      [("status", vStr "success"), ("url", vStr url),
       ("title", vStr pg.title), ("final_url", vStr pg.final_url),
       ("debug_info", vStrList debug)]
    if get_title_only then result
    else
      update result
        [("body_text_length", vInt (pg.body_text.length : Int)),
         ("has_forms", vBool (decide (0 < pg.form_count))),
         ("form_count", vInt (pg.form_count : Int)),
         ("has_buttons", vBool (decide (0 < pg.button_count))),
         ("button_count", vInt (pg.button_count : Int)),
         ("input_count", vInt (pg.input_count : Int))]

/-- The parent half of the post-navigation delay of `playwright_fetch`:
`"delay_ms": max(0, int(delay_ms))` (source line 203). -/
def fetch_config_delay_ms (delay_ms : Int) : Int := max 0 delay_ms

/-- The child half (source lines 252-254): when the configured value is
truthy, `time.sleep(min(5000, max(0, int(cfg["delay_ms"])))/1000.0)`; the
slept duration in milliseconds. -/
def fetch_child_sleep_ms (cfg_delay : Int) : Int :=
  if cfg_delay ≠ 0 then min 5000 (max 0 cfg_delay) else 0

/-- The delay actually applied before extraction, for a requested
`delay_ms` value. -/
def applied_delay_ms (delay_ms : Int) : Int :=
  fetch_child_sleep_ms (fetch_config_delay_ms delay_ms)

/-! ## Concurrency model: `_PLAYWRIGHT_SEMAPHORE = asyncio.Semaphore(2)`

Each coroutine is abstracted to the sequence of semaphore/process events
it performs.  `playwright_fetch`, `playwright_tool`, `dictionary_define`
and `playwright_snapshot_dom` wrap their child in
`async with _PLAYWRIGHT_SEMAPHORE`, so on every exit path (success, error
result, timeout, raised spawn failure) the slot is released exactly once
by `__aexit__`.  `playwright_web_inspect` spawns its child without
touching the semaphore (source lines 957-965). -/

/-- Atomic events of one operation: take a semaphore slot, create the
child process, observe the child gone (exit or kill), release the slot. -/
inductive Action where
  | acquire : Action
  | spawn : Action
  | reap : Action
  | release : Action
deriving DecidableEq, Repr

/-- How a guarded operation's body terminates. -/
inductive OpOutcome where
  | ok : OpOutcome
  | timeout : OpOutcome
  | spawnFail : OpOutcome
deriving DecidableEq, Repr

/-- Event program of a semaphore-guarded operation.  On `ok` the child
runs and exits; on `timeout` it is killed (still reaped); on `spawnFail`
`create_subprocess_exec` raises inside the `async with`, which still
releases the slot while propagating the exception. -/
def guardedProg : OpOutcome → List Action
  | OpOutcome.ok => [Action.acquire, Action.spawn, Action.reap, Action.release]
  | OpOutcome.timeout => [Action.acquire, Action.spawn, Action.reap, Action.release]
  | OpOutcome.spawnFail => [Action.acquire, Action.release]

/-- Event program of `playwright_web_inspect`: it creates its child
process without acquiring a semaphore slot. -/
def inspectProg : List Action := [Action.spawn, Action.reap]

/-- Global state: the remaining program of each in-flight operation, the
free slots of the semaphore, and the number of live child processes. -/
structure Config where
  pending : List (List Action)
  sem : Nat
  children : Nat
deriving DecidableEq, Repr

/-- Interleaving semantics: any operation may perform its next event;
`acquire` only fires when a slot is free (the semaphore suspends the
caller otherwise), `release` returns a slot, `spawn`/`reap` adjust the
live-children count. -/
inductive Step : Config → Config → Prop where
  | acquire (pre post : List (List Action)) (rest : List Action) (s ch : Nat) :
      Step ⟨pre ++ (Action.acquire :: rest) :: post, s + 1, ch⟩
           ⟨pre ++ rest :: post, s, ch⟩
  | spawn (pre post : List (List Action)) (rest : List Action) (s ch : Nat) :
      Step ⟨pre ++ (Action.spawn :: rest) :: post, s, ch⟩
           ⟨pre ++ rest :: post, s, ch + 1⟩
  | reap (pre post : List (List Action)) (rest : List Action) (s ch : Nat) :
      Step ⟨pre ++ (Action.reap :: rest) :: post, s, ch + 1⟩
           ⟨pre ++ rest :: post, s, ch⟩
  | release (pre post : List (List Action)) (rest : List Action) (s ch : Nat) :
      Step ⟨pre ++ (Action.release :: rest) :: post, s, ch⟩
           ⟨pre ++ rest :: post, s + 1, ch⟩

/-- Reachability under the interleaving semantics. -/
def Reachable : Config → Config → Prop := Relation.ReflTransGen Step

/-- 1 when the operation currently holds a semaphore slot (it is past its
`acquire` and before its `release`). -/
def holding : List Action → Nat
  | Action.spawn :: _ => 1
  | Action.reap :: _ => 1
  | Action.release :: _ => 1
  | _ => 0

/-- 1 when the operation currently has a live child process. -/
def running : List Action → Nat
  | Action.reap :: _ => 1
  | _ => 0

def holdSum (ps : List (List Action)) : Nat := (ps.map holding).sum

def runSum (ps : List (List Action)) : Nat := (ps.map running).sum

/-- The suffixes of guarded programs (the shapes an in-flight guarded
operation can have). -/
def GuardedSuffix (p : List Action) : Prop :=
  p = [Action.acquire, Action.spawn, Action.reap, Action.release] ∨
  p = [Action.spawn, Action.reap, Action.release] ∨
  p = [Action.reap, Action.release] ∨
  p = [Action.release] ∨
  p = [Action.acquire, Action.release] ∨
  p = []

/-- Inductive invariant of a system of guarded operations over the
2-slot semaphore. -/
def Inv (c : Config) : Prop :=
  (∀ p ∈ c.pending, GuardedSuffix p) ∧
  c.sem + holdSum c.pending = 2 ∧
  c.children = runSum c.pending

theorem running_le_holding (p : List Action) : running p ≤ holding p := by
  cases p with
  | nil => simp [running, holding]
  | cons a rest => cases a <;> simp [running, holding]

theorem holdSum_mid (pre post : List (List Action)) (x : List Action) :
    holdSum (pre ++ x :: post) = holdSum pre + holding x + holdSum post := by
  simp only [holdSum, List.map_append, List.sum_append, List.map_cons,
    List.sum_cons]
  omega

theorem runSum_mid (pre post : List (List Action)) (x : List Action) :
    runSum (pre ++ x :: post) = runSum pre + running x + runSum post := by
  simp only [runSum, List.map_append, List.sum_append, List.map_cons,
    List.sum_cons]
  omega

theorem mem_pending_replace {pre post : List (List Action)}
    {x rest : List Action}
    (hmem : ∀ p ∈ pre ++ x :: post, GuardedSuffix p)
    (hrest : GuardedSuffix rest) :
    ∀ p ∈ pre ++ rest :: post, GuardedSuffix p := by
  intro p hp
  rcases List.mem_append.1 hp with hp | hp
  · exact hmem p (List.mem_append.2 (Or.inl hp))
  · rcases List.mem_cons.1 hp with hp | hp
    · subst hp
      exact hrest
    · exact hmem p (List.mem_append.2 (Or.inr (List.mem_cons.2 (Or.inr hp))))

theorem inv_step {c c' : Config} (hinv : Inv c) (hs : Step c c') : Inv c' := by
  obtain ⟨hmem, hsem, hch⟩ := hinv
  cases hs with
  | acquire pre post rest s ch =>
      dsimp only at hmem hsem hch ⊢
      have hx : GuardedSuffix (Action.acquire :: rest) :=
        hmem _ (List.mem_append.2 (Or.inr (List.mem_cons.2 (Or.inl rfl))))
      have hrest : rest = [Action.spawn, Action.reap, Action.release] ∨
          rest = [Action.release] := by
        rcases hx with h | h | h | h | h | h <;> simp_all [GuardedSuffix]
      rw [holdSum_mid] at hsem
      rw [runSum_mid] at hch
      have hg : GuardedSuffix rest := by
        rcases hrest with h | h <;> subst h <;> simp [GuardedSuffix]
      refine ⟨mem_pending_replace hmem hg, ?_, ?_⟩
      · dsimp only
        rw [holdSum_mid]
        have e0 : holding (Action.acquire :: rest) = 0 := rfl
        have e1 : holding rest = 1 := by
          rcases hrest with h | h <;> subst h <;> rfl
        omega
      · dsimp only
        rw [runSum_mid]
        have e0 : running (Action.acquire :: rest) = 0 := rfl
        have e1 : running rest = 0 := by
          rcases hrest with h | h <;> subst h <;> rfl
        omega
  | spawn pre post rest s ch =>
      dsimp only at hmem hsem hch ⊢
      have hx : GuardedSuffix (Action.spawn :: rest) :=
        hmem _ (List.mem_append.2 (Or.inr (List.mem_cons.2 (Or.inl rfl))))
      have hrest : rest = [Action.reap, Action.release] := by
        rcases hx with h | h | h | h | h | h <;> simp_all [GuardedSuffix]
      subst hrest
      rw [holdSum_mid] at hsem
      rw [runSum_mid] at hch
      have hg : GuardedSuffix [Action.reap, Action.release] := by
        simp [GuardedSuffix]
      refine ⟨mem_pending_replace hmem hg, ?_, ?_⟩
      · dsimp only
        rw [holdSum_mid]
        have e0 : holding (Action.spawn :: [Action.reap, Action.release]) = 1 := rfl
        have e1 : holding [Action.reap, Action.release] = 1 := rfl
        omega
      · dsimp only
        rw [runSum_mid]
        have e0 : running (Action.spawn :: [Action.reap, Action.release]) = 0 := rfl
        have e1 : running [Action.reap, Action.release] = 1 := rfl
        omega
  | reap pre post rest s ch =>
      dsimp only at hmem hsem hch ⊢
      have hx : GuardedSuffix (Action.reap :: rest) :=
        hmem _ (List.mem_append.2 (Or.inr (List.mem_cons.2 (Or.inl rfl))))
      have hrest : rest = [Action.release] := by
        rcases hx with h | h | h | h | h | h <;> simp_all [GuardedSuffix]
      subst hrest
      rw [holdSum_mid] at hsem
      rw [runSum_mid] at hch
      have hg : GuardedSuffix [Action.release] := by
        simp [GuardedSuffix]
      refine ⟨mem_pending_replace hmem hg, ?_, ?_⟩
      · dsimp only
        rw [holdSum_mid]
        have e0 : holding (Action.reap :: [Action.release]) = 1 := rfl
        have e1 : holding [Action.release] = 1 := rfl
        omega
      · dsimp only
        rw [runSum_mid]
        have e0 : running (Action.reap :: [Action.release]) = 1 := rfl
        have e1 : running [Action.release] = 0 := rfl
        omega
  | release pre post rest s ch =>
      dsimp only at hmem hsem hch ⊢
      have hx : GuardedSuffix (Action.release :: rest) :=
        hmem _ (List.mem_append.2 (Or.inr (List.mem_cons.2 (Or.inl rfl))))
      have hrest : rest = [] := by
        rcases hx with h | h | h | h | h | h <;> simp_all [GuardedSuffix]
      subst hrest
      rw [holdSum_mid] at hsem
      rw [runSum_mid] at hch
      have hg : GuardedSuffix ([] : List Action) := by
        simp [GuardedSuffix]
      refine ⟨mem_pending_replace hmem hg, ?_, ?_⟩
      · dsimp only
        rw [holdSum_mid]
        have e0 : holding (Action.release :: ([] : List Action)) = 1 := rfl
        have e1 : holding ([] : List Action) = 0 := rfl
        omega
      · dsimp only
        rw [runSum_mid]
        have e0 : running (Action.release :: ([] : List Action)) = 0 := rfl
        have e1 : running ([] : List Action) = 0 := rfl
        omega

theorem reachable_inv {c0 c : Config} (h0 : Inv c0) (h : Reachable c0 c) :
    Inv c := by
  induction h with
  | refl => exact h0
  | tail _ hstep ih => exact inv_step ih hstep

theorem runSum_le_holdSum (ps : List (List Action)) : runSum ps ≤ holdSum ps := by
  induction ps with
  | nil => simp [runSum, holdSum]
  | cons p rest ih =>
      simp only [runSum, holdSum, List.map_cons, List.sum_cons] at ih ⊢
      have := running_le_holding p
      omega

/-! ## Program texts handed to the child interpreter

These are the exact texts `reflex_dev_agent.py` builds (with the f-string
semantics of the source applied).  Only `playwright_web_inspect` builds a
text that depends on user input. -/

/-- A newline. -/
def nlStr : String := "\n"

/-- Python `str()` of a bool, as interpolated by an f-string. -/
def pyBoolStr : Bool → String
  | true => "True"
  | false => "False"

/-- Join with newlines, mirroring the line structure of the Python
string literals. -/
def joinLines (ls : List String) : String := String.intercalate nlStr ls

/-- The `child_code` program text of `playwright_fetch` (source lines 209-325), sent to the child over standard input. -/
def fetch_child_code : String := joinLines [
   "",
   "import sys, json, time, base64, re, hashlib",
   "from playwright.sync_api import sync_playwright, TimeoutError as PWTimeout, Error as PWError",
   "",
   "def clean_ws(s: str, limit: int | None = None):",
   "    if not s:",
   "        return s",
   "    s = re.sub(r\"\\s+\", \" \", s).strip()",
   "    if limit and len(s) > limit:",
   "        return s[:limit] + \"\xe2\u20ac\xa6\"",
   "    return s",
   "",
   "def run(url: str, cfg: dict):",
   "    t0 = time.time()",
   "    attempts = []",
   "    try:",
   "        with sync_playwright() as p:",
   "            browser = p.chromium.launch(headless=True)",
   "            page = browser.new_page()",
   "            nav_ok = False",
   "            try:",
   "                page.goto(url, wait_until=\"domcontentloaded\", timeout=15000)",
   "                attempts.append(\"domcontentloaded_ok\")",
   "                nav_ok = True",
   "            except PWTimeout:",
   "                attempts.append(\"domcontentloaded_timeout\")",
   "                try:",
   "                    page.goto(url, wait_until=\"load\", timeout=10000)",
   "                    attempts.append(\"load_ok\")",
   "                    nav_ok = True",
   "                except PWTimeout:",
   "                    attempts.append(\"load_timeout\")",
   "            if not nav_ok:",
   "                browser.close()",
   "                return \x7b\"status\": \"error\", \"phase\": \"navigation\", \"attempts\": attempts, \"error\": \"navigation timeouts\"\x7d",
   "",
   "            if cfg.get(\"wait_selector\"):",
   "                try:",
   "                    page.wait_for_selector(cfg[\"wait_selector\"], timeout=8000)",
   "                    attempts.append(\"wait_selector_ok\")",
   "                except PWTimeout:",
   "                    attempts.append(\"wait_selector_timeout\")",
   "",
   "            if cfg.get(\"delay_ms\"):",
   "                try:",
   "                    time.sleep(min(5000, max(0, int(cfg[\"delay_ms\"])))/1000.0)",
   "                    attempts.append(f\"delay_\x7bcfg[\x27delay_ms\x27]\x7dms\")",
   "                except Exception:",
   "                    attempts.append(\"delay_error\")",
   "",
   "            title = page.title()",
   "            ready_state = \"\"",
   "            try:",
   "                ready_state = page.evaluate(\"document.readyState\")",
   "            except Exception:",
   "                pass",
   "            html = \"\"",
   "            try:",
   "                html = page.content()[: int(cfg.get(\"max_html\", 6000))]",
   "            except Exception:",
   "                pass",
   "            text_preview = \"\"",
   "            try:",
   "                text_preview = page.inner_text(\"body\")[: int(cfg.get(\"max_text\", 2500))]",
   "            except Exception:",
   "                pass",
   "",
   "            selector_results = \x7b\x7d",
   "            for sel in cfg.get(\"selectors\", []):",
   "                try:",
   "                    el = page.query_selector(sel)",
   "                    if el:",
   "                        selector_results[sel] = clean_ws(el.inner_text(), 500)",
   "                    else:",
   "                        selector_results[sel] = None",
   "                except Exception as e:",
   "                    selector_results[sel] = f\"error: \x7be\x7d\"[:120]",
   "",
   "            screenshot_b64 = None",
   "            screenshot_meta = None",
   "            if cfg.get(\"screenshot\"):",
   "                try:",
   "                    ss = page.screenshot(type=\"png\", full_page=bool(cfg.get(\"full_page\")))",
   "                    if cfg.get(\"ephemeral\"):",
   "                        sha = hashlib.sha256(ss).hexdigest()",
   "                        screenshot_meta = \x7b\"bytes\": len(ss), \"sha256\": sha, \"full_page\": bool(cfg.get(\"full_page\"))\x7d",
   "                    else:",
   "                        screenshot_b64 = base64.b64encode(ss).decode()",
   "                except Exception as e:",
   "                    screenshot_b64 = f\"screenshot_error: \x7be\x7d\"[:160]",
   "",
   "            browser.close()",
   "            result = \x7b",
   "                \"status\": \"success\",",
   "                \"url\": url,",
   "                \"final_url\": page.url,",
   "                \"title\": title,",
   "                \"ready_state\": ready_state,",
   "                \"attempts\": attempts,",
   "                \"html_preview\": html,",
   "                \"text_preview\": clean_ws(text_preview, 2500),",
   "                \"selectors_extracted\": selector_results,",
   "                \"screenshot_base64\": screenshot_b64,",
   "                \"screenshot_meta\": screenshot_meta,",
   "                \"elapsed_ms\": int((time.time() - t0) * 1000)",
   "            \x7d",
   "            if cfg.get(\"screenshot\") and cfg.get(\"ephemeral\") and screenshot_meta is None and not screenshot_b64:",
   "                result[\"screenshot_meta\"] = \x7b\"warning\": \"ephemeral requested but no screenshot captured\"\x7d",
   "            return result",
   "    except PWError as e:",
   "        return \x7b\"status\": \"error\", \"phase\": \"launch\", \"error\": str(e), \"attempts\": attempts\x7d",
   "    except Exception as e:",
   "        return \x7b\"status\": \"error\", \"phase\": \"runtime\", \"error\": str(e), \"attempts\": attempts\x7d",
   "",
   "if __name__ == \"main__\":",
   "    pass",
   ""]

/-- The `wrapper` program text of `playwright_fetch` (source lines 328-337): reads the child code from stdin, the URL and the config JSON from argv. -/
def fetch_wrapper : String := joinLines [
   "",
   "import sys, json",
   "child_code = sys.stdin.read()",
   "url = sys.argv[1]",
   "cfg = json.loads(sys.argv[2])",
   "ns = \x7b\x7d",
   "exec(child_code, ns)",
   "import json as _j",
   "print(_j.dumps(ns[\x27run\x27](url, cfg)))",
   ""]

/-- The `child_code` program text of `dictionary_define` (source lines 377-450); the term arrives via `sys.argv[1]`. -/
def dictionary_child_code : String := joinLines [
   "",
   "import re, sys, json, time",
   "from playwright.sync_api import sync_playwright, TimeoutError as PWTimeout, Error as PWError",
   "",
   "TERM = sys.argv[1]",
   "URL = f\"https://www.merriam-webster.com/dictionary/\x7bTERM\x7d\"",
   "",
   "def clean(txt: str) -> str:",
   "    t = re.sub(r\"\\s+\", \" \", txt).strip()",
   "    t = t.lstrip(\x27: \x27).strip()",
   "    # remove bracketed pronunciation markers etc at start",
   "    t = re.sub(r\"^\\[[^\\]]+\\]\\s*\", \"\", t)",
   "    return t",
   "",
   "start = time.time()",
   "attempts = []",
   "definitions = []",
   "status = \"ok\"",
   "error = None",
   "",
   "try:",
   "    with sync_playwright() as p:",
   "        browser = p.chromium.launch(headless=True)",
   "        page = browser.new_page()",
   "        try:",
   "            page.goto(URL, wait_until=\"domcontentloaded\", timeout=15000)",
   "            attempts.append(\"domcontentloaded_ok\")",
   "        except PWTimeout:",
   "            attempts.append(\"domcontentloaded_timeout\")",
   "            page.goto(URL, timeout=15000)",
   "",
   "        # Cookie / consent dismissal best-effort",
   "        try:",
   "            page.locator(\"button:has-text(\x27Accept\x27)\").first.click(timeout=2000)",
   "        except Exception:",
   "            pass",
   "",
   "        # Merriam-Webster main defs: span.dtText inside div.vg or similar containers",
   "        nodes = page.locator(\"span.dtText\")",
   "        count = nodes.count()",
   "        for i in range(count):",
   "            try:",
   "                raw = nodes.nth(i).inner_text().strip()",
   "            except Exception:",
   "                continue",
   "            c = clean(raw)",
   "            if not c:",
   "                continue",
   "            # Skip pure cross-references like \"see X\"",
   "            if re.match(r\"^see \", c, re.IGNORECASE):",
   "                continue",
   "            definitions.append(c)",
   "            if len(definitions) >= 20:",
   "                break",
   "        browser.close()",
   "except PWError as e:",
   "    status = \"error\"",
   "    error = f\"playwright: \x7be\x7d\"[:200]",
   "except Exception as e:",
   "    status = \"error\"",
   "    error = str(e)[:200]",
   "",
   "elapsed_ms = int((time.time()-start)*1000)",
   "",
   "out = \x7b",
   "    \"status\": status,",
   "    \"url\": URL,",
   "    \"total_definitions\": len(definitions),",
   "    \"definitions\": definitions[:12],",
   "    \"elapsed_ms\": elapsed_ms,",
   "    \"attempts\": attempts",
   "\x7d",
   "print(json.dumps(out, ensure_ascii=False))",
   ""]

/-- The `child_code` program text of `_run_playwright_child` (source lines 489-541); the URL arrives via `sys.argv[1]`. -/
def run_child_code : String := joinLines [
   "",
   "import sys, json, time",
   "from playwright.sync_api import sync_playwright, Error as PWError, TimeoutError as PWTimeout",
   "",
   "def main(url: str):",
   "    start = time.time()",
   "    attempts = []",
   "    try:",
   "        with sync_playwright() as p:",
   "            browser = p.chromium.launch(headless=True)",
   "            page = browser.new_page()",
   "            # Prefer domcontentloaded (faster & dev-server friendly) then load",
   "            nav_ok = False",
   "            try:",
   "                page.goto(url, wait_until=\"domcontentloaded\", timeout=6_000)",
   "                attempts.append(\"domcontentloaded_ok\")",
   "                nav_ok = True",
   "            except PWTimeout:",
   "                attempts.append(\"domcontentloaded_timeout\")",
   "                try:",
   "                    page.goto(url, wait_until=\"load\", timeout=6_000)",
   "                    attempts.append(\"load_ok\")",
   "                    nav_ok = True",
   "                except PWTimeout:",
   "                    attempts.append(\"load_timeout\")",
   "",
   "            if not nav_ok:",
   "                result = \x7b",
   "                    \"status\": \"error\",",
   "                    \"phase\": \"nav\",",
   "                    \"error\": \"navigation timeouts\",",
   "                    \"attempts\": attempts,",
   "                    \"elapsed_ms\": int((time.time()-start)*1000)",
   "                \x7d",
   "            else:",
   "                result = \x7b",
   "                    \"status\": \"ok\",",
   "                    \"title\": page.title(),",
   "                    \"url\": page.url,",
   "                    \"ready_state\": page.evaluate(\"document.readyState\"),",
   "                    \"attempts\": attempts,",
   "                    \"elapsed_ms\": int((time.time()-start)*1000)",
   "                \x7d",
   "            browser.close()",
   "    except PWError as e:",
   "        result = \x7b\"status\": \"error\", \"phase\": \"launch\", \"error\": str(e), \"attempts\": attempts, \"elapsed_ms\": int((time.time()-start)*1000)\x7d",
   "    except Exception as e:",
   "        result = \x7b\"status\": \"error\", \"phase\": \"runtime\", \"error\": str(e), \"attempts\": attempts, \"elapsed_ms\": int((time.time()-start)*1000)\x7d",
   "    print(json.dumps(result))",
   "",
   "if __name__ == \"__main__\":",
   "    main(sys.argv[1])",
   ""]

/-- The `snapshot_code` program text of `playwright_snapshot_dom` (source lines 605-705): an f-string whose braces are all escaped, so the built text is the same for every request; URL and screenshot flag arrive via argv. -/
def snapshot_code : String := joinLines [
   "",
   "import sys, json, time, base64, os",
   "from playwright.sync_api import sync_playwright, Error as PWError, TimeoutError as PWTimeout",
   "",
   "def main(url: str, take_screenshot: bool):",
   "    start = time.time()",
   "    attempts = []",
   "    try:",
   "        with sync_playwright() as p:",
   "            browser = p.chromium.launch(headless=True)",
   "            page = browser.new_page()",
   "            ",
   "            # Set viewport for consistent screenshots",
   "            page.set_viewport_size(\x7b\"width\": 1280, \"height\": 720\x7d)",
   "            ",
   "            # Navigate with fallback strategy",
   "            nav_ok = False",
   "            try:",
   "                page.goto(url, wait_until=\"domcontentloaded\", timeout=8_000)",
   "                attempts.append(\"domcontentloaded_ok\")",
   "                nav_ok = True",
   "            except PWTimeout:",
   "                attempts.append(\"domcontentloaded_timeout\")",
   "                try:",
   "                    page.goto(url, wait_until=\"load\", timeout=6_000)",
   "                    attempts.append(\"load_ok\")",
   "                    nav_ok = True",
   "                except PWTimeout:",
   "                    attempts.append(\"load_timeout\")",
   "",
   "            if not nav_ok:",
   "                result = \x7b",
   "                    \"status\": \"error\",",
   "                    \"phase\": \"navigation\",",
   "                    \"error\": \"All navigation strategies failed\",",
   "                    \"attempts\": attempts,",
   "                    \"elapsed_ms\": int((time.time()-start)*1000)",
   "                \x7d",
   "            else:",
   "                # Extract DOM information",
   "                title = page.title()",
   "                html_content = page.content()[:5000]  # First 5KB of HTML",
   "                ",
   "                # Get page metrics",
   "                ready_state = page.evaluate(\"document.readyState\")",
   "                ",
   "                # Extract forms, buttons, inputs",
   "                forms = page.query_selector_all(\"form\")",
   "                buttons = page.query_selector_all(\"button\")",
   "                inputs = page.query_selector_all(\"input\")",
   "                links = page.query_selector_all(\"a\")",
   "                ",
   "                # Get visible text",
   "                body_text = \"\"",
   "                try:",
   "                    body_element = page.query_selector(\"body\")",
   "                    if body_element:",
   "                        body_text = body_element.inner_text()[:2000]  # First 2KB of text",
   "                except Exception:",
   "                    pass",
   "                ",
   "                # Take screenshot if requested",
   "                screenshot_data = None",
   "                if take_screenshot:",
   "                    try:",
   "                        screenshot_bytes = page.screenshot(type=\"png\", full_page=False)",
   "                        screenshot_data = base64.b64encode(screenshot_bytes).decode()",
   "                    except Exception as e:",
   "                        screenshot_data = f\"Screenshot failed: \x7bstr(e)\x7d\"",
   "                ",
   "                result = \x7b",
   "                    \"status\": \"success\",",
   "                    \"url\": page.url,",
   "                    \"title\": title,",
   "                    \"ready_state\": ready_state,",
   "                    \"html_preview\": html_content,",
   "                    \"body_text_preview\": body_text,",
   "                    \"dom_elements\": \x7b",
   "                        \"forms\": len(forms),",
   "                        \"buttons\": len(buttons),",
   "                        \"inputs\": len(inputs),",
   "                        \"links\": len(links)",
   "                    \x7d,",
   "                    \"screenshot_base64\": screenshot_data,",
   "                    \"attempts\": attempts,",
   "                    \"elapsed_ms\": int((time.time()-start)*1000)",
   "                \x7d",
   "            ",
   "            browser.close()",
   "    except PWError as e:",
   "        result = \x7b\"status\": \"error\", \"phase\": \"browser_launch\", \"error\": str(e), \"attempts\": attempts, \"elapsed_ms\": int((time.time()-start)*1000)\x7d",
   "    except Exception as e:",
   "        result = \x7b\"status\": \"error\", \"phase\": \"runtime\", \"error\": str(e), \"attempts\": attempts, \"elapsed_ms\": int((time.time()-start)*1000)\x7d",
   "    ",
   "    print(json.dumps(result))",
   "",
   "if __name__ == \"__main__\":",
   "    url = sys.argv[1]",
   "    take_screenshot = sys.argv[2].lower() == \"true\" if len(sys.argv) > 2 else True",
   "    main(url, take_screenshot)",
   ""]

/-- The `script` program text of `playwright_web_inspect` (source lines 852-955): an f-string that interpolates the caller-supplied `url` (7 times) and `get_title_only` (once) directly into the program text. -/
def web_inspect_script (url : String) (get_title_only : Bool) : String := joinLines [
   "",
   "import json",
   "import sys",
   "from playwright.sync_api import sync_playwright, Error as PWError, TimeoutError as PWTimeout",
   "",
   "def inspect_website():",
   "    try:",
   "        with sync_playwright() as p:",
   "            browser = p.chromium.launch(headless=True)",
   "            page = browser.new_page()",
   "            ",
   "            # Multi-strategy navigation with fallbacks",
   "            navigation_success = False",
   "            debug_info = []",
   "            ",
   "            # Strategy 1: networkidle (preferred)",
   "            try:",
   "                page.goto(\"" ++ url ++ "\", wait_until=\"networkidle\", timeout=8000)",
   "                navigation_success = True",
   "                debug_info.append(\"networkidle_success\")",
   "            except PWTimeout:",
   "                debug_info.append(\"networkidle_timeout\")",
   "                ",
   "                # Strategy 2: domcontentloaded (fallback)",
   "                try:",
   "                    page.goto(\"" ++ url ++ "\", wait_until=\"domcontentloaded\", timeout=6000)",
   "                    navigation_success = True",
   "                    debug_info.append(\"domcontentloaded_success\")",
   "                except PWTimeout:",
   "                    debug_info.append(\"domcontentloaded_timeout\")",
   "                    ",
   "                    # Strategy 3: load (last resort)",
   "                    try:",
   "                        page.goto(\"" ++ url ++ "\", wait_until=\"load\", timeout=4000)",
   "                        navigation_success = True",
   "                        debug_info.append(\"load_success\")",
   "                    except PWTimeout:",
   "                        debug_info.append(\"load_timeout\")",
   "            ",
   "            if not navigation_success:",
   "                browser.close()",
   "                return \x7b",
   "                    \"status\": \"error\",",
   "                    \"url\": \"" ++ url ++ "\",",
   "                    \"error\": \"All navigation strategies timed out\",",
   "                    \"debug_info\": debug_info",
   "                \x7d",
   "            ",
   "            # Check page readiness",
   "            ready_state = page.evaluate(\"document.readyState\")",
   "            debug_info.append(f\"ready_state: \x7bready_state\x7d\")",
   "            ",
   "            # Extract basic information",
   "            result = \x7b",
   "                \"status\": \"success\",",
   "                \"url\": \"" ++ url ++ "\",",
   "                \"title\": page.title(),",
   "                \"final_url\": page.url,",
   "                \"debug_info\": debug_info",
   "            \x7d",
   "            ",
   "            # Extract detailed info if requested",
   "            if not " ++ (pyBoolStr get_title_only) ++ ":",
   "                try:",
   "                    body_text = page.inner_text(\"body\") if page.query_selector(\"body\") else \"\"",
   "                    forms = page.query_selector_all(\"form\")",
   "                    buttons = page.query_selector_all(\"button\")",
   "                    inputs = page.query_selector_all(\"input\")",
   "                    ",
   "                    result.update(\x7b",
   "                        \"body_text_length\": len(body_text),",
   "                        \"has_forms\": len(forms) > 0,",
   "                        \"form_count\": len(forms),",
   "                        \"has_buttons\": len(buttons) > 0,",
   "                        \"button_count\": len(buttons),",
   "                        \"input_count\": len(inputs)",
   "                    \x7d)",
   "                except Exception as detail_error:",
   "                    result[\"detail_error\"] = str(detail_error)[:100]",
   "            ",
   "            browser.close()",
   "            return result",
   "            ",
   "    except PWError as e:",
   "        return \x7b",
   "            \"status\": \"error\",",
   "            \"url\": \"" ++ url ++ "\",",
   "            \"phase\": \"browser_launch\",",
   "            \"error\": str(e)[:200],",
   "            \"debug_info\": [\"playwright_launch_failed\"]",
   "        \x7d",
   "    except Exception as e:",
   "        return \x7b",
   "            \"status\": \"error\",",
   "            \"url\": \"" ++ url ++ "\",",
   "            \"phase\": \"runtime\",",
   "            \"error\": str(e)[:200],",
   "            \"debug_info\": [\"general_exception\"]",
   "        \x7d",
   "",
   "# Write result to stdout as JSON",
   "result = inspect_website()",
   "print(json.dumps(result))",
   ""]

/-- Argv of the `playwright_fetch` subprocess (source line 339): the
wrapper text, then the URL and config JSON as arguments; the child code
itself travels over standard input. -/
def playwright_fetch_argv (effective_py url cfgJson : String) : List String :=
  [effective_py, "-c", fetch_wrapper, url, cfgJson]

/-- Standard-input payload of the `playwright_fetch` subprocess. -/
def playwright_fetch_stdin : String := fetch_child_code

/-- Argv of the `dictionary_define` subprocess (source line 453). -/
def dictionary_define_argv (effective_py term : String) : List String :=
  [effective_py, "-c", dictionary_child_code, term]

/-- Argv of the `_run_playwright_child` subprocess (source line 545). -/
def run_playwright_child_argv (effective_py url : String) : List String :=
  [effective_py, "-c", run_child_code, url]

/-- Argv of the `playwright_snapshot_dom` subprocess (source line 708);
the second extra argument is `str(take_screenshot).lower()`. -/
def playwright_snapshot_argv (effective_py url shot : String) : List String :=
  [effective_py, "-c", snapshot_code, url, shot]

/-- Argv of the `playwright_web_inspect` subprocess (source lines
959-960): the URL reaches the child only inside the program text. -/
def web_inspect_argv (effective_py url : String) (get_title_only : Bool) :
    List String :=
  [effective_py, "-c", web_inspect_script url get_title_only]

/-! ## Shared helper lemmas -/

/-- A coroutine call that returns a dictionary (instead of raising). -/
def returnsDict (r : Except PyExc Dict) : Prop := ∃ d, r = Except.ok d

/-- Every key of the stable schema survives every path of
`playwright_web_inspect` (updates never delete keys). -/
theorem web_inspect_keys_superset (J : JsonLib) (url : String)
    (p1 p0 : List Bool) (o : ChildOutcome) :
    ∀ k ∈ keys (web_inspect_result_schema url),
      k ∈ keys (playwright_web_inspect_run J url p1 p0 o) := by
  intro k hk
  unfold playwright_web_inspect_run
  cases hpc : playwright_tool_precheck url p1 p0 with
  | some herr =>
      simpa [hpc] using mem_keys_update _ herr k hk
  | none =>
      cases o with
      | spawnError msg => simpa [hpc] using mem_keys_update _ _ k hk
      | timeout => simpa [hpc] using mem_keys_update _ _ k hk
      | completed rc out err =>
          simp only [hpc]
          split
          · cases hl : J.loads out.trim with
            | ok d =>
                simpa [hl] using
                  mem_keys_setKey _ "timestamp" vFloat k (mem_keys_update _ d k hk)
            | error e => simpa [hl] using mem_keys_update _ _ k hk
          · simpa using mem_keys_update _ _ k hk

/-- `all (!·)` polls mean no connect succeeded, so `wait_for_port` is
false. -/
theorem wait_for_port_eq_false {polls : List Bool}
    (h : polls.all (fun b => !b) = true) : wait_for_port polls = false := by
  unfold wait_for_port
  cases hb : polls.any id with
  | false => rfl
  | true =>
      exfalso
      rcases List.any_eq_true.1 hb with ⟨x, hx, hxx⟩
      have h2 := List.all_eq_true.1 h x hx
      cases x
      · simp at hxx
      · simp at h2

/-! ## Claim C9 -/

/-- C9: for every requested post-navigation delay value, the delay that
`playwright_fetch`'s child actually sleeps before extraction is clamped
into [0, 5000] milliseconds, and a request of 50000 ms is applied as the
5000 ms maximum. -/
theorem c9_delay_clamped :
    (∀ d : Int, 0 ≤ applied_delay_ms d ∧ applied_delay_ms d ≤ 5000) ∧
    applied_delay_ms 50000 = 5000 := by
  constructor
  · intro d
    unfold applied_delay_ms fetch_child_sleep_ms fetch_config_delay_ms
    split <;> constructor <;> omega
  · decide

/-! ## Claim C10 -/

/-- C10: `dictionary_define`'s sense selection is total over the
integers: for `1 ≤ sense_index ≤ length defs` the requested definition is
the `sense_index`-th (1-based) entry, otherwise it is `None`; and the
child returns at most 12 definitions. -/
theorem c10_sense_selection :
    (∀ (defs : List String) (s : Int),
        (1 ≤ s → s ≤ (defs.length : Int) →
          dictionary_sense_select defs s = defs.get? (s.toNat - 1) ∧
          (dictionary_sense_select defs s).isSome = true) ∧
        (s < 1 ∨ (defs.length : Int) < s →
          dictionary_sense_select defs s = none)) ∧
    (∀ raw : List String, (dictionary_child_definitions raw).length ≤ 12) := by
  refine ⟨?_, ?_⟩
  · intro defs s
    constructor
    · intro h1 h2
      unfold dictionary_sense_select
      have hc : 0 ≤ s - 1 ∧ s - 1 < (defs.length : Int) := by omega
      rw [dif_pos hc]
      have hn : (s - 1).toNat = s.toNat - 1 := by omega
      have hlt : s.toNat - 1 < defs.length := by omega
      refine ⟨?_, rfl⟩
      rw [List.get?_eq_get hlt]
      simp only [hn]
    · intro h
      unfold dictionary_sense_select
      rw [dif_neg]
      omega
  · intro raw
    exact List.length_take_le 12 raw

/-- C10 witness: concrete evaluations obtained from the theorem. -/
theorem c10_sense_selection_witness :
    dictionary_sense_select ["a", "b", "c"] 2 = some "b" ∧
    dictionary_sense_select ["a", "b", "c"] 7 = none ∧
    dictionary_sense_select ["a", "b", "c"] 0 = none := by
  refine ⟨?_, ?_, ?_⟩
  · have h := (c10_sense_selection.1 ["a", "b", "c"] 2).1 (by decide) (by decide)
    simpa using h.1
  · exact (c10_sense_selection.1 ["a", "b", "c"] 7).2 (Or.inr (by decide))
  · exact (c10_sense_selection.1 ["a", "b", "c"] 0).2 (Or.inl (by decide))

/-! ## Claim C1 -/

/-- C1 counterexample: an expired deadline in `playwright_snapshot_dom`
does not produce a status dictionary — the timeout handler evaluates the
never-assigned local `stderr` and raises `UnboundLocalError` to the
caller. -/
theorem c1_counterexample :
    playwright_snapshot_decode J0 "http://example.com/" ChildOutcome.timeout =
      Except.error (PyExc.unboundLocalError "stderr") := rfl

/-- C1 (amended): `playwright_web_inspect` returns a dictionary with a
`status` key on every outcome, process-creation failure included; the
other four operations return dictionaries for timeouts and completed
children — except that `playwright_snapshot_dom`'s timeout handler raises
`UnboundLocalError`, and a process-creation failure propagates as the
raised `OSError` in all four (no outer wrapper). -/
theorem c1_error_folding :
    (∀ (J : JsonLib) (url : String) (p1 p0 : List Bool) (o : ChildOutcome),
        "status" ∈ keys (playwright_web_inspect_run J url p1 p0 o)) ∧
    (∀ (J : JsonLib) (t rc : Int) (out err : String),
        returnsDict (run_playwright_child_decode J t ChildOutcome.timeout) ∧
        returnsDict (run_playwright_child_decode J t
          (ChildOutcome.completed rc out err))) ∧
    (∀ (J : JsonLib) (url : String) (rc : Int) (out err : String),
        returnsDict (playwright_fetch_decode J url ChildOutcome.timeout) ∧
        returnsDict (playwright_fetch_decode J url
          (ChildOutcome.completed rc out err)) ∧
        returnsDict (playwright_snapshot_decode J url
          (ChildOutcome.completed rc out err))) ∧
    (∀ (J : JsonLib) (term : String) (si rc : Int) (out err : String),
        returnsDict (dictionary_define_decode J term si ChildOutcome.timeout) ∧
        returnsDict (dictionary_define_decode J term si
          (ChildOutcome.completed rc out err))) ∧
    (∀ (J : JsonLib) (url : String),
        playwright_snapshot_decode J url ChildOutcome.timeout =
          Except.error (PyExc.unboundLocalError "stderr")) ∧
    (∀ (J : JsonLib) (url msg : String) (t si : Int) (term : String),
        playwright_fetch_decode J url (ChildOutcome.spawnError msg) =
          Except.error (PyExc.osError msg) ∧
        run_playwright_child_decode J t (ChildOutcome.spawnError msg) =
          Except.error (PyExc.osError msg) ∧
        playwright_snapshot_decode J url (ChildOutcome.spawnError msg) =
          Except.error (PyExc.osError msg) ∧
        dictionary_define_decode J term si (ChildOutcome.spawnError msg) =
          Except.error (PyExc.osError msg)) := by
  refine ⟨?_, ?_, ?_, ?_, ?_, ?_⟩
  · intro J url p1 p0 o
    exact web_inspect_keys_superset J url p1 p0 o "status"
      (by simp [web_inspect_result_schema, keys])
  · intro J t rc out err
    refine ⟨⟨_, rfl⟩, ?_⟩
    simp only [run_playwright_child_decode]
    split
    · exact ⟨_, rfl⟩
    · split
      · exact ⟨_, rfl⟩
      · exact ⟨_, rfl⟩
  · intro J url rc out err
    refine ⟨⟨_, rfl⟩, ?_, ?_⟩
    · simp only [playwright_fetch_decode]
      split
      · exact ⟨_, rfl⟩
      · split
        · exact ⟨_, rfl⟩
        · exact ⟨_, rfl⟩
    · simp only [playwright_snapshot_decode]
      split
      · exact ⟨_, rfl⟩
      · split
        · exact ⟨_, rfl⟩
        · exact ⟨_, rfl⟩
  · intro J term si rc out err
    refine ⟨⟨_, rfl⟩, ?_⟩
    simp only [dictionary_define_decode]
    split
    · exact ⟨_, rfl⟩
    · split
      · exact ⟨_, rfl⟩
      · exact ⟨_, rfl⟩
  · intro J url
    rfl
  · intro J url msg t si term
    exact ⟨rfl, rfl, rfl, rfl⟩

/-! ## Claim C7 -/

/-- C7 counterexample: two paths of the same operation
(`playwright_fetch`) return different key sets — the timeout result has
keys `status, error, url` while the process-exit result has keys
`status, error, stderr` — so no fixed per-operation key set is contained
in every result. -/
theorem c7_counterexample :
    playwright_fetch_decode J0 "http://x/" ChildOutcome.timeout =
      Except.ok [("status", vStr "error"), ("error", vStr "timeout after 30s"),
                 ("url", vStr "http://x/")] ∧
    playwright_fetch_decode J0 "http://x/" (ChildOutcome.completed 1 "" "boom") =
      Except.ok [("status", vStr "error"), ("error", vStr "child exit 1"),
                 ("stderr", vStr ("boom".take 400))] ∧
    keys [("status", vStr "error"), ("error", vStr "timeout after 30s"),
          ("url", vStr "http://x/")] ≠
      keys [("status", vStr "error"), ("error", vStr "child exit 1"),
            ("stderr", vStr ("boom".take 400))] := by
  refine ⟨rfl, rfl, by decide⟩

/-- C7 (amended): `playwright_web_inspect` does keep a stable schema —
every key of its `result_schema` is present in the result of every
success or failure path — but the other operations return path-dependent
key sets. -/
theorem c7_stable_schema :
    ∀ (J : JsonLib) (url : String) (p1 p0 : List Bool) (o : ChildOutcome),
      ∀ k ∈ keys (web_inspect_result_schema url),
        k ∈ keys (playwright_web_inspect_run J url p1 p0 o) :=
  fun J url p1 p0 o => web_inspect_keys_superset J url p1 p0 o

/-- C7 witness: the `title` schema key survives a concrete timeout path. -/
theorem c7_stable_schema_witness :
    "title" ∈ keys (playwright_web_inspect_run J0 "http://x/" [] []
      ChildOutcome.timeout) :=
  c7_stable_schema J0 "http://x/" [] [] ChildOutcome.timeout "title"
    (by simp [web_inspect_result_schema, keys])

/-! ## Claim C4 -/

/-- C4 counterexample: when the pre-flight check for a recognized local
port fails, `playwright_tool` returns the health-check dict without
spawning, but its `phase` is `"reflex_unavailable"`, not `"navigation"`
as the claim states. -/
theorem c4_counterexample :
    playwright_tool_run J0 "http://localhost:3001/" [false, false] []
        (ChildOutcome.completed 0 "ignored" "") =
      (0, Except.ok (reflex_unavailable_dict 3001)) ∧
    getVal (reflex_unavailable_dict 3001) "phase" =
      some (vStr "reflex_unavailable") ∧
    getVal (reflex_unavailable_dict 3001) "phase" ≠
      some (vStr "navigation") := by
  refine ⟨rfl, rfl, by decide⟩

/-- C4 (amended): for a URL recognizing port 3001 (or 3000), if no
connect attempt inside the polling budget succeeds, `playwright_tool`
short-circuits with `status=error`, `phase=reflex_unavailable` and the
message "Reflex dev server not listening on port P", spawning no child
process. -/
theorem c4_healthcheck_short_circuit :
    ∀ (J : JsonLib) (url : String) (pA pB : List Bool) (o : ChildOutcome),
      ((pyIn "localhost:3001" url || pyIn "127.0.0.1:3001" url) = true →
        pA.all (fun b => !b) = true →
        playwright_tool_run J url pA pB o =
          (0, Except.ok (reflex_unavailable_dict 3001))) ∧
      ((pyIn "localhost:3001" url || pyIn "127.0.0.1:3001" url) = false →
        (pyIn "localhost:3000" url || pyIn "127.0.0.1:3000" url) = true →
        pB.all (fun b => !b) = true →
        playwright_tool_run J url pA pB o =
          (0, Except.ok (reflex_unavailable_dict 3000))) := by
  intro J url pA pB o
  constructor
  · intro h1 h2
    unfold playwright_tool_run playwright_tool_precheck
      reflex_healthcheck_or_fail
    rw [wait_for_port_eq_false h2]
    simp [h1]
  · intro h1 h2 h3
    unfold playwright_tool_run playwright_tool_precheck
      reflex_healthcheck_or_fail
    rw [wait_for_port_eq_false h3]
    simp [h1, h2]

/-- C4 witness: concrete applications of the short-circuit theorem for
both recognized ports. -/
theorem c4_healthcheck_short_circuit_witness :
    playwright_tool_run J0 "http://localhost:3001/" [false] [] ChildOutcome.timeout =
      (0, Except.ok (reflex_unavailable_dict 3001)) ∧
    playwright_tool_run J0 "http://127.0.0.1:3000/app" [] [false, false]
        ChildOutcome.timeout =
      (0, Except.ok (reflex_unavailable_dict 3000)) := by
  constructor
  · exact (c4_healthcheck_short_circuit J0 "http://localhost:3001/" [false] []
      ChildOutcome.timeout).1 (by decide) (by decide)
  · exact (c4_healthcheck_short_circuit J0 "http://127.0.0.1:3000/app" []
      [false, false] ChildOutcome.timeout).2 (by decide) (by decide) (by decide)

/-! ## Claim C5 -/

/-- A 500-character non-JSON standard output. -/
def longRaw : String := String.mk (List.replicate 500 'x')

set_option maxRecDepth 4000 in
/-- C5 counterexample: a completed child whose stdout fails to parse
yields `status=error`, but the result has no `phase` key at all (so not
`phase=decode`), and in `_run_playwright_child` the raw-output excerpt is
not truncated (a 500-character stdout is echoed whole, beyond the claimed
fixed maximum). -/
theorem c5_counterexample :
    run_playwright_child_decode J0 22 (ChildOutcome.completed 0 "" "") =
      Except.ok [("status", vStr "error"),
                 ("error", vStr "bad JSON from child: Expecting value: line 1 column 1 (char 0)"),
                 ("raw", vStr "")] ∧
    getVal [("status", vStr "error"),
            ("error", vStr "bad JSON from child: Expecting value: line 1 column 1 (char 0)"),
            ("raw", vStr "")] "phase" = none ∧
    run_playwright_child_decode J0 22 (ChildOutcome.completed 0 longRaw "e") =
      Except.ok [("status", vStr "error"),
                 ("error", vStr "bad JSON from child: Expecting value: line 1 column 1 (char 0)"),
                 ("raw", vStr longRaw)] ∧
    400 < longRaw.length := by
  refine ⟨rfl, rfl, rfl, by decide⟩

/-- C5 (amended): for a completed child whose stdout fails to parse as
JSON (empty stdout with exit code 0 included), `_run_playwright_child`
returns `status=error` with the parse exception message prefixed
"bad JSON from child: " and the raw stdout untruncated under the `raw`
key (no `phase` key), while `playwright_fetch` uses the prefix
"bad JSON: " and truncates `raw` to 400 characters. -/
theorem c5_decode_failure :
    ∀ (J : JsonLib) (t : Int) (url : String) (rc : Int) (out err e : String),
      (rc = 0 ∨ out ≠ "") → J.loads out = Except.error e →
      run_playwright_child_decode J t (ChildOutcome.completed rc out err) =
        Except.ok [("status", vStr "error"),
                   ("error", vStr ("bad JSON from child: " ++ e)),
                   ("raw", vStr out)] ∧
      (rc = 0 →
        playwright_fetch_decode J url (ChildOutcome.completed rc out err) =
          Except.ok [("status", vStr "error"),
                     ("error", vStr ("bad JSON: " ++ e)),
                     ("raw", vStr (out.take 400))]) := by
  intro J t url rc out err e h1 h2
  constructor
  · have hn : ¬(rc ≠ 0 ∧ out = "") := by tauto
    simp [run_playwright_child_decode, hn, h2]
  · intro h0
    subst h0
    simp [playwright_fetch_decode, h2]

/-- C5 witness: the theorem applied to empty stdout with exit code 0. -/
theorem c5_decode_failure_witness :
    run_playwright_child_decode J0 22 (ChildOutcome.completed 0 "" "junk") =
      Except.ok [("status", vStr "error"),
                 ("error", vStr ("bad JSON from child: " ++ "Expecting value: line 1 column 1 (char 0)")),
                 ("raw", vStr "")] ∧
    playwright_fetch_decode J0 "http://x/" (ChildOutcome.completed 0 "" "junk") =
      Except.ok [("status", vStr "error"),
                 ("error", vStr ("bad JSON: " ++ "Expecting value: line 1 column 1 (char 0)")),
                 ("raw", vStr ("".take 400))] := by
  have h := c5_decode_failure J0 22 "http://x/" 0 "" "junk"
    "Expecting value: line 1 column 1 (char 0)" (Or.inl rfl) J0.loads_empty
  exact ⟨h.1, h.2 rfl⟩

/-! ## Claim C6 -/

/-- C6 counterexample: `playwright_fetch` classifies a completed child as
a process-exit error whenever the exit code is non-zero, even with
non-empty stdout (refuting the "exactly when ... AND stdout empty"
classification), and the result carries no `phase` key (so not
`phase=process_exit`). -/
theorem c6_counterexample :
    playwright_fetch_decode J0 "http://x/"
        (ChildOutcome.completed 1 "some stdout" "boom") =
      Except.ok [("status", vStr "error"), ("error", vStr "child exit 1"),
                 ("stderr", vStr ("boom".take 400))] ∧
    ("some stdout" : String) ≠ "" ∧
    getVal [("status", vStr "error"), ("error", vStr "child exit 1"),
            ("stderr", vStr ("boom".take 400))] "phase" = none := by
  refine ⟨rfl, by decide, rfl⟩

/-- C6 (amended): `_run_playwright_child` and `playwright_snapshot_dom`
classify a completed child as a process-exit error when the exit code is
non-zero and stdout is empty, returning `status=error` with the exit code
in the message and stderr (untruncated in `_run_playwright_child`,
truncated to 500 characters in `playwright_snapshot_dom`); but
`playwright_fetch` applies the classification whenever the exit code is
non-zero (stdout ignored), truncating stderr to 400 characters; no
operation emits a `phase` key. -/
theorem c6_process_exit :
    ∀ (J : JsonLib) (t : Int) (url : String) (rc : Int) (out err : String),
      (rc ≠ 0 → out = "" →
        run_playwright_child_decode J t (ChildOutcome.completed rc out err) =
          Except.ok [("status", vStr "error"),
                     ("error", vStr ("child exit " ++ toString rc)),
                     ("stderr", vStr err)] ∧
        playwright_snapshot_decode J url (ChildOutcome.completed rc out err) =
          Except.ok [("status", vStr "error"),
                     ("error", vStr ("process exit " ++ toString rc)),
                     ("stderr", vStr (err.take 500)),
                     ("url", vStr url)]) ∧
      (rc ≠ 0 →
        playwright_fetch_decode J url (ChildOutcome.completed rc out err) =
          Except.ok [("status", vStr "error"),
                     ("error", vStr ("child exit " ++ toString rc)),
                     ("stderr", vStr (err.take 400))]) := by
  intro J t url rc out err
  constructor
  · intro h1 h2
    constructor
    · simp [run_playwright_child_decode, h1, h2]
    · simp [playwright_snapshot_decode, h1, h2]
  · intro h1
    simp [playwright_fetch_decode, h1]

/-- C6 witness: the theorem applied at exit code 2, empty stdout. -/
theorem c6_process_exit_witness :
    run_playwright_child_decode J0 22 (ChildOutcome.completed 2 "" "boom") =
      Except.ok [("status", vStr "error"),
                 ("error", vStr ("child exit " ++ toString (2 : Int))),
                 ("stderr", vStr "boom")] ∧
    playwright_fetch_decode J0 "http://x/" (ChildOutcome.completed 2 "" "boom") =
      Except.ok [("status", vStr "error"),
                 ("error", vStr ("child exit " ++ toString (2 : Int))),
                 ("stderr", vStr ("boom".take 400))] := by
  have h := c6_process_exit J0 22 "http://x/" 2 "" "boom"
  exact ⟨(h.1 (by decide) rfl).1, h.2 (by decide)⟩

/-! ## Claim C2 -/

/-- A page that times out under networkidle and succeeds under
domcontentloaded. -/
def pg_ni_timeout_dcl_ok : InspectPage :=
  ⟨NavOutcome.timeout, NavOutcome.ok, NavOutcome.ok, "Radix Themes",
   "http://localhost:3000/", "complete", "", 0, 0, 0⟩

/-- A page on which every navigation strategy times out. -/
def pg_all_timeout : InspectPage :=
  ⟨NavOutcome.timeout, NavOutcome.timeout, NavOutcome.timeout, "", "", "",
   "", 0, 0, 0⟩

/-- C2 counterexample: for a target failing networkidle and succeeding
domcontentloaded, the child of `playwright_web_inspect` logs
`["networkidle_timeout", "domcontentloaded_success", "ready_state: ..."]`
into `debug_info` — not `["networkidle_timeout", "domcontentloaded_ok"]`
— and on the all-timeout path the error result carries no `phase` key at
all. -/
theorem c2_counterexample :
    getVal (inspect_website "http://localhost:3000/" true pg_ni_timeout_dcl_ok)
        "debug_info" =
      some (vStrList ["networkidle_timeout", "domcontentloaded_success",
                      "ready_state: complete"]) ∧
    (["networkidle_timeout", "domcontentloaded_success",
      "ready_state: complete"] : List String) ≠
      ["networkidle_timeout", "domcontentloaded_ok"] ∧
    getVal (inspect_website "http://localhost:3000/" true pg_all_timeout)
        "phase" = none := by
  refine ⟨rfl, by decide, rfl⟩

/-- C2 (amended): the child of `playwright_web_inspect` tries
networkidle, then domcontentloaded, then load, logging every attempt in
order into `debug_info` and stopping at the first success; the entries
are named `<strategy>_timeout` / `<strategy>_success` and a successful
navigation appends a `ready_state:` entry; if every strategy times out,
the result is `status=error` with message "All navigation strategies
timed out", the three timeout entries, and no `phase` key. -/
theorem c2_navigation_fallback :
    ∀ (url : String) (tOnly : Bool) (pg : InspectPage),
      (pg.networkidle = NavOutcome.ok →
        getVal (inspect_website url tOnly pg) "status" = some (vStr "success") ∧
        getVal (inspect_website url tOnly pg) "debug_info" =
          some (vStrList ["networkidle_success",
                          "ready_state: " ++ pg.ready_state])) ∧
      (pg.networkidle = NavOutcome.timeout →
        pg.domcontentloaded = NavOutcome.ok →
        getVal (inspect_website url tOnly pg) "status" = some (vStr "success") ∧
        getVal (inspect_website url tOnly pg) "debug_info" =
          some (vStrList ["networkidle_timeout", "domcontentloaded_success",
                          "ready_state: " ++ pg.ready_state])) ∧
      (pg.networkidle = NavOutcome.timeout →
        pg.domcontentloaded = NavOutcome.timeout →
        pg.load = NavOutcome.ok →
        getVal (inspect_website url tOnly pg) "status" = some (vStr "success") ∧
        getVal (inspect_website url tOnly pg) "debug_info" =
          some (vStrList ["networkidle_timeout", "domcontentloaded_timeout",
                          "load_success", "ready_state: " ++ pg.ready_state])) ∧
      (pg.networkidle = NavOutcome.timeout →
        pg.domcontentloaded = NavOutcome.timeout →
        pg.load = NavOutcome.timeout →
        getVal (inspect_website url tOnly pg) "status" = some (vStr "error") ∧
        getVal (inspect_website url tOnly pg) "error" =
          some (vStr "All navigation strategies timed out") ∧
        getVal (inspect_website url tOnly pg) "debug_info" =
          some (vStrList ["networkidle_timeout", "domcontentloaded_timeout",
                          "load_timeout"]) ∧
        getVal (inspect_website url tOnly pg) "phase" = none) := by
  intro url tOnly pg
  obtain ⟨ni, dcl, ld, title, furl, rs, bt, fc, bc, ic⟩ := pg
  refine ⟨?_, ?_, ?_, ?_⟩
  · intro h1
    cases h1
    cases tOnly <;>
      simp [inspect_website, getVal, update, setKey]
  · intro h1 h2
    cases h1
    cases h2
    cases tOnly <;>
      simp [inspect_website, getVal, update, setKey]
  · intro h1 h2 h3
    cases h1
    cases h2
    cases h3
    cases tOnly <;>
      simp [inspect_website, getVal, update, setKey]
  · intro h1 h2 h3
    cases h1
    cases h2
    cases h3
    cases tOnly <;>
      simp [inspect_website, getVal, update, setKey]

/-- C2 witness: concrete pages exercising the fail-then-succeed and
all-timeout scenarios through the theorem. -/
theorem c2_navigation_fallback_witness :
    getVal (inspect_website "http://u/" true pg_ni_timeout_dcl_ok) "status" =
      some (vStr "success") ∧
    getVal (inspect_website "http://u/" true pg_all_timeout) "status" =
      some (vStr "error") := by
  constructor
  · exact ((c2_navigation_fallback "http://u/" true pg_ni_timeout_dcl_ok).2.1
      rfl rfl).1
  · exact ((c2_navigation_fallback "http://u/" true
      pg_all_timeout).2.2.2 rfl rfl rfl).1

/-! ## Claim C3 -/

/-- C3 counterexample: with two guarded operations and one
`playwright_web_inspect` in flight, a reachable state has three live
browser children — the claimed process-wide bound of 2 fails because
`playwright_web_inspect` spawns without acquiring a semaphore slot. -/
theorem c3_counterexample :
    ∃ c : Config,
      Reachable ⟨[guardedProg OpOutcome.ok, guardedProg OpOutcome.ok,
                  inspectProg], 2, 0⟩ c ∧
      c.children = 3 := by
  refine ⟨⟨[[Action.reap, Action.release], [Action.reap, Action.release],
            [Action.reap]], 0, 3⟩, ?_, rfl⟩
  have s1 : Step
      ⟨[guardedProg OpOutcome.ok, guardedProg OpOutcome.ok, inspectProg], 2, 0⟩
      ⟨[[Action.spawn, Action.reap, Action.release], guardedProg OpOutcome.ok,
        inspectProg], 1, 0⟩ :=
    Step.acquire [] [guardedProg OpOutcome.ok, inspectProg]
      [Action.spawn, Action.reap, Action.release] 1 0
  have s2 : Step
      ⟨[[Action.spawn, Action.reap, Action.release], guardedProg OpOutcome.ok,
        inspectProg], 1, 0⟩
      ⟨[[Action.spawn, Action.reap, Action.release],
        [Action.spawn, Action.reap, Action.release], inspectProg], 0, 0⟩ :=
    Step.acquire [[Action.spawn, Action.reap, Action.release]] [inspectProg]
      [Action.spawn, Action.reap, Action.release] 0 0
  have s3 : Step
      ⟨[[Action.spawn, Action.reap, Action.release],
        [Action.spawn, Action.reap, Action.release], inspectProg], 0, 0⟩
      ⟨[[Action.reap, Action.release],
        [Action.spawn, Action.reap, Action.release], inspectProg], 0, 1⟩ :=
    Step.spawn [] [[Action.spawn, Action.reap, Action.release], inspectProg]
      [Action.reap, Action.release] 0 0
  have s4 : Step
      ⟨[[Action.reap, Action.release],
        [Action.spawn, Action.reap, Action.release], inspectProg], 0, 1⟩
      ⟨[[Action.reap, Action.release], [Action.reap, Action.release],
        inspectProg], 0, 2⟩ :=
    Step.spawn [[Action.reap, Action.release]] [inspectProg]
      [Action.reap, Action.release] 0 1
  have s5 : Step
      ⟨[[Action.reap, Action.release], [Action.reap, Action.release],
        inspectProg], 0, 2⟩
      ⟨[[Action.reap, Action.release], [Action.reap, Action.release],
        [Action.reap]], 0, 3⟩ :=
    Step.spawn [[Action.reap, Action.release], [Action.reap, Action.release]]
      [] [Action.reap] 0 2
  exact Relation.ReflTransGen.tail
    (Relation.ReflTransGen.tail
      (Relation.ReflTransGen.tail
        (Relation.ReflTransGen.tail
          (Relation.ReflTransGen.tail Relation.ReflTransGen.refl s1) s2) s3)
      s4) s5

/-- C3 (amended): among the semaphore-guarded operations
(`playwright_fetch`, `playwright_tool`, `dictionary_define`,
`playwright_snapshot_dom`) at most 2 children ever run simultaneously,
and every guarded program acquires and releases its slot exactly once on
every exit path (`async with` releases on success, timeout and raised
spawn failure alike); `playwright_web_inspect` is outside the guard. -/
theorem c3_semaphore_bound :
    ∀ (ps : List (List Action)) (c : Config),
      (∀ p ∈ ps, ∃ o, p = guardedProg o) →
      Reachable ⟨ps, 2, 0⟩ c →
      c.children ≤ 2 ∧
      (∀ o, (guardedProg o).count Action.acquire = 1 ∧
            (guardedProg o).count Action.release = 1) := by
  intro ps c hps hr
  have h0 : Inv ⟨ps, 2, 0⟩ := by
    refine ⟨?_, ?_, ?_⟩
    · intro p hp
      rcases hps p hp with ⟨o, rfl⟩
      cases o <;> simp [guardedProg, GuardedSuffix]
    · have hz : ∀ x ∈ ps.map holding, x = 0 := by
        intro x hx
        rcases List.mem_map.1 hx with ⟨p, hp, rfl⟩
        rcases hps p hp with ⟨o, rfl⟩
        cases o <;> rfl
      have : holdSum ps = 0 := List.sum_eq_zero hz
      simp [this]
    · have hz : ∀ x ∈ ps.map running, x = 0 := by
        intro x hx
        rcases List.mem_map.1 hx with ⟨p, hp, rfl⟩
        rcases hps p hp with ⟨o, rfl⟩
        cases o <;> rfl
      have : runSum ps = 0 := List.sum_eq_zero hz
      simp [this]
  have hinv := reachable_inv h0 hr
  constructor
  · obtain ⟨_, hsem, hch⟩ := hinv
    have := runSum_le_holdSum c.pending
    omega
  · intro o
    cases o <;> exact ⟨rfl, rfl⟩

/-- C3 witness: a single guarded operation at the initial state. -/
theorem c3_semaphore_bound_witness :
    (⟨[guardedProg OpOutcome.ok], 2, 0⟩ : Config).children ≤ 2 ∧
    (∀ o, (guardedProg o).count Action.acquire = 1 ∧
          (guardedProg o).count Action.release = 1) := by
  exact c3_semaphore_bound [guardedProg OpOutcome.ok]
    ⟨[guardedProg OpOutcome.ok], 2, 0⟩
    (fun p hp => ⟨OpOutcome.ok, by simpa using hp⟩)
    Relation.ReflTransGen.refl

/-! ## Claim C8 -/

set_option maxRecDepth 100000 in
/-- C8 counterexample: `playwright_web_inspect` interpolates the URL into
the child program text, so two different target URLs are handed two
different program texts. -/
theorem c8_counterexample :
    web_inspect_script "http://a/" true ≠ web_inspect_script "http://ab/" true := by
  decide

/-- C8 (amended): `playwright_fetch`, `_run_playwright_child` (used by
`playwright_tool`), `playwright_snapshot_dom` and `dictionary_define`
hand the interpreter a program text that is identical for every pair of
target URLs (and parameters), the user-supplied parameters travelling in
the process argument vector (or on standard input for `playwright_fetch`'s
child body); `playwright_web_inspect` instead embeds the URL in the
program text itself, and its argv carries no URL argument. -/
theorem c8_program_text_constant :
    ∀ (py u1 u2 cf1 cf2 t1 t2 sh1 sh2 : String),
      (playwright_fetch_argv py u1 cf1).get? 2 =
        (playwright_fetch_argv py u2 cf2).get? 2 ∧
      (playwright_fetch_argv py u1 cf1).get? 3 = some u1 ∧
      playwright_fetch_stdin = fetch_child_code ∧
      (run_playwright_child_argv py u1).get? 2 =
        (run_playwright_child_argv py u2).get? 2 ∧
      (run_playwright_child_argv py u1).get? 3 = some u1 ∧
      (playwright_snapshot_argv py u1 sh1).get? 2 =
        (playwright_snapshot_argv py u2 sh2).get? 2 ∧
      (playwright_snapshot_argv py u1 sh1).get? 3 = some u1 ∧
      (dictionary_define_argv py t1).get? 2 =
        (dictionary_define_argv py t2).get? 2 ∧
      (dictionary_define_argv py t1).get? 3 = some t1 ∧
      (web_inspect_argv py u1 true).get? 2 =
        some (web_inspect_script u1 true) ∧
      (web_inspect_argv py u1 true).get? 3 = none := by
  intro py u1 u2 cf1 cf2 t1 t2 sh1 sh2
  exact ⟨rfl, rfl, rfl, rfl, rfl, rfl, rfl, rfl, rfl, rfl, rfl⟩

end ReflexDevAgent
